import Mathlib

/-!
Shallow embedding of the UE-side context and NAS handlers of the
PacketRusher 5G tester (package `internal/control_test_engine/ue/context`
and the NAS handler file), together with theorems checking the spec's
claims about 5G-AKA, PDU-session slot management, routing-indicator
encoding and UE termination.

Go byte slices are `List Nat` (entries < 256 at every call site), Go
strings are Lean `String`, Go channels are a `closed` flag plus a buffer,
and every Go `panic`/`log.Fatal` is an `Option`/`GoResult` failure value.
The Milenage primitives and the HMAC-SHA256 KDF live in library packages
outside the excerpted sources; they are passed as explicit function
parameters (`CryptoPrimitives`) whose output lengths are pinned by the
fixed-size buffers the source allocates for them (`CryptoWF`).
-/

namespace PacketRusher

/-! ## Go-semantics helpers: hex strings, byte formatting, comparison -/

/-- Value of one hexadecimal digit, as `encoding/hex` accepts it
(digits, lowercase and uppercase letters). -/
def hexDigitVal (c : Char) : Option Nat :=
  if '0' ≤ c ∧ c ≤ '9' then some (c.toNat - '0'.toNat)
  else if 'a' ≤ c ∧ c ≤ 'f' then some (c.toNat - 'a'.toNat + 10)
  else if 'A' ≤ c ∧ c ≤ 'F' then some (c.toNat - 'A'.toNat + 10)
  else none

/-- Go `encoding/hex.DecodeString` on a list of characters: two hex digits
per byte, failing on odd length or a non-hex character. -/
def hexDecodeChars : List Char → Option (List Nat)
  | [] => some []
  | [_] => none
  | c1 :: c2 :: rest => do
    let hi ← hexDigitVal c1
    let lo ← hexDigitVal c2
    let tail ← hexDecodeChars rest
    pure ((16 * hi + lo) :: tail)

/-- Go `encoding/hex.DecodeString` on a Go string. -/
def hexDecodeString (s : String) : Option (List Nat) :=
  hexDecodeChars s.data

/-- Lowercase hexadecimal digit character for a value below 16. -/
def hexDigitChar (n : Nat) : Char :=
  if n < 10 then Char.ofNat ('0'.toNat + n) else Char.ofNat ('a'.toNat + (n - 10))

/-- Go `fmt.Sprintf("%x", bs)` on a byte slice: every byte becomes
exactly two lowercase hex digits. -/
def hexEncodeBytes : List Nat → List Char
  | [] => []
  | b :: rest => hexDigitChar (b % 256 / 16) :: hexDigitChar (b % 16) :: hexEncodeBytes rest

/-- Go `fmt.Sprintf("%x", bs)` as a Lean string. -/
def goHexBytes (bs : List Nat) : String :=
  String.mk (hexEncodeBytes bs)

/-- Go `fmt.Sprintf("%x", b)` on a single byte value: minimal-width
lowercase hex, so one digit below 0x10 and two digits otherwise. -/
def goHexNat (n : Nat) : List Char :=
  if n < 16 then [hexDigitChar n]
  else [hexDigitChar (n % 256 / 16), hexDigitChar (n % 16)]

/-- Go `bytes.Compare`: lexicographic byte-wise comparison, a strict
prefix ordering below the longer slice. -/
def bytesCompare : List Nat → List Nat → Ordering
  | [], [] => .eq
  | [], _ :: _ => .lt
  | _ :: _, [] => .gt
  | a :: as, b :: bs =>
    if a < b then .lt else if b < a then .gt else bytesCompare as bs

/-- UTF-8 bytes of a Go string; all strings handled here are ASCII, so
this is the list of character codes. -/
def strBytes (s : String) : List Nat :=
  s.data.map Char.toNat

/-! ## Channels and Go results -/

/-- A Go channel as the state visible to this embedding: whether it has
been closed, and the messages sent so far. A send on a closed channel
and a `close` of a closed channel are Go panics, modelled as `Option`
failures at the operations below. -/
structure GoChan (α : Type) where
  closed : Bool
  buf : List α
deriving DecidableEq, Repr

/-- Result of a Go function that can return an `error` or panic. -/
inductive GoResult (α : Type) where
  | ok : α → GoResult α
  | err : GoResult α
  | goPanic : GoResult α
deriving DecidableEq, Repr

def GoResult.toOption : GoResult α → Option α
  | .ok a => some a
  | _ => none

def GoResult.isErr : GoResult α → Bool
  | .err => true
  | _ => false

def GoResult.isGoPanic : GoResult α → Bool
  | .goPanic => true
  | _ => false

/-! ## Data model (context.go) -/

/-- 5GMM main states in the UE. -/
def MM5G_NULL : Nat := 0x00
def MM5G_DEREGISTERED : Nat := 0x01
def MM5G_REGISTERED_INITIATED : Nat := 0x02
def MM5G_REGISTERED : Nat := 0x03
def MM5G_SERVICE_REQ_INIT : Nat := 0x04
def MM5G_DEREGISTERED_INIT : Nat := 0x05

/-- 5GSM main states in the UE. -/
def SM5G_PDU_SESSION_INACTIVE : Nat := 0x06
def SM5G_PDU_SESSION_ACTIVE_PENDING : Nat := 0x07
def SM5G_PDU_SESSION_ACTIVE : Nat := 0x08

/-- Struct `models.AuthenticationSubscription`: the fields
`DeriveRESstarAndSetKey` and `SetAuthSubscription` use, all hex strings
as in the Go struct. -/
structure AuthenticationSubscription where
  PermanentKeyValue : String
  OpcValue : String
  OpValue : String
  AuthenticationManagementField : String
  SequenceNumber : String
deriving DecidableEq, Repr

/-- Struct `models.Snssai`. -/
structure ModelsSnssai where
  Sst : Int
  Sd : String
deriving DecidableEq, Repr

/-- The `Amf` identity block of the UE context. -/
structure Amf where
  amfRegionId : Nat
  amfSetId : Nat
  amfPointer : Nat
  amfUeId : Int
deriving DecidableEq, Repr

/-- Struct `UEPDUSession`: per-slot session state. The netlink handles
(`tun`, `routeTun`, `vrf`) and the `stopSignal` channel are tracked as
presence flags; `Wait` as its closed flag. -/
structure UEPDUSession where
  Id : Nat
  ueIP : String
  hasTun : Bool
  hasRoute : Bool
  hasVrf : Bool
  waitClosed : Bool
  hasStopSignal : Bool
  StateSM : Nat
deriving DecidableEq, Repr

/-- The `SECURITY` block of `UEContext` (fields the verified operations
read or write). -/
structure SECURITY where
  Supi : String
  Msin : String
  IntegrityAlg : Nat
  CipheringAlg : Nat
  Snn : String
  KnasEnc : List Nat
  KnasInt : List Nat
  Kamf : List Nat
  AuthenticationSubs : AuthenticationSubscription
  RoutingIndicator : String
  Guti : List Nat
deriving DecidableEq, Repr

/-- Struct `UEContext`: one simulated subscriber. `PduSession` is the 16-slot
array (a list of length 16 in every constructed context), `gnbRx` the
nilable uplink channel, `scenarioChan` the state-change channel. -/
structure UEContext where
  id : Nat
  UeSecurity : SECURITY
  StateMM : Nat
  gnbRx : Option (GoChan Unit)
  PduSession : List (Option UEPDUSession)
  amfInfo : Amf
  Dnn : String
  Snssai : ModelsSnssai
  TunnelEnabled : Bool
  scenarioChan : GoChan Nat
deriving DecidableEq, Repr

/-! ## MM state setters (context.go) -/

/-- Setter `SetStateMM_NULL`: the only MM setter that does not publish on
`scenarioChan`. -/
def SetStateMM_NULL (ue : UEContext) : UEContext :=
  { ue with StateMM := MM5G_NULL }

/-- Send `ue.scenarioChan <- scenario.ScenarioMessage{StateChange: m}`:
a send on a closed channel is a Go panic (`none`). -/
def scenarioSend (ue : UEContext) (m : Nat) : Option UEContext :=
  if ue.scenarioChan.closed then none
  else some { ue with scenarioChan := { ue.scenarioChan with buf := ue.scenarioChan.buf ++ [m] } }

def SetStateMM_REGISTERED_INITIATED (ue : UEContext) : Option UEContext :=
  let ue := { ue with StateMM := MM5G_REGISTERED_INITIATED }
  scenarioSend ue ue.StateMM

def SetStateMM_REGISTERED (ue : UEContext) : Option UEContext :=
  let ue := { ue with StateMM := MM5G_REGISTERED }
  scenarioSend ue ue.StateMM

def SetStateMM_DEREGISTERED (ue : UEContext) : Option UEContext :=
  let ue := { ue with StateMM := MM5G_DEREGISTERED }
  scenarioSend ue ue.StateMM

def Set5gGuti (ue : UEContext) (guti : List Nat) : UEContext :=
  { ue with UeSecurity := { ue.UeSecurity with Guti := guti } }

def SetAmfRegionId (ue : UEContext) (r : Nat) : UEContext :=
  { ue with amfInfo := { ue.amfInfo with amfRegionId := r } }

def SetAmfPointer (ue : UEContext) (p : Nat) : UEContext :=
  { ue with amfInfo := { ue.amfInfo with amfPointer := p } }

def SetAmfSetId (ue : UEContext) (s : Nat) : UEContext :=
  { ue with amfInfo := { ue.amfInfo with amfSetId := s } }

/-! ## External crypto collaborators

`milenage.F2345_Test`, `milenage.F1_Test`, `UeauCommon.GetKDFValue` and
`auth.AlgorithmKeyDerivation` live in library packages outside the
excerpted source files; the spec treats them as external collaborators
(Milenage f1..f5*, the TS 33.220 HMAC-SHA256 KDF, TS 33.501 A.8 NAS key
derivation). They enter the embedding as explicit function parameters.
The source fixes their output sizes by the buffers it hands them:
`RES[8], CK[16], IK[16], AK[6], AKstar[6]`, `mac_a[8], mac_s[8]`, and
the 32-byte HMAC-SHA256 output of the KDF; `CryptoWF` records exactly
those lengths. -/

/-- Output buffers of `milenage.F2345_Test(OPC, K, RAND, RES, CK, IK, AK, AKstar)`. -/
structure MilenageOut where
  RES : List Nat
  CK : List Nat
  IK : List Nat
  AK : List Nat
  AKstar : List Nat

/-- The external crypto functions, as called by the source. -/
structure CryptoPrimitives where
  /-- Go function `milenage.F2345_Test OPC K RAND` filling `(RES, CK, IK, AK, AKstar)`. -/
  F2345 : List Nat → List Nat → List Nat → MilenageOut
  /-- Go function `milenage.F1_Test OPC K RAND SQN AMF` filling `(mac_a, mac_s)`. -/
  F1 : List Nat → List Nat → List Nat → List Nat → List Nat → List Nat × List Nat
  /-- Go function `UeauCommon.GetKDFValue key FC P0 L0 P1 L1 ...`; the variadic
  parameter list is passed as one list of byte slices. -/
  GetKDFValue : List Nat → String → List (List Nat) → List Nat
  /-- Modelled from the spec: `auth.AlgorithmKeyDerivation` /
  `derive_nas_keys` (TS 33.501 Annex A.8), `(cipherAlg, Kamf, integAlg)`
  to `(KnasEnc, KnasInt)`; the source for it is not among the excerpts. -/
  AlgorithmKeyDerivation : Nat → List Nat → Nat → List Nat × List Nat

/-- Output lengths fixed by the call-site buffers in the source. -/
structure CryptoWF (c : CryptoPrimitives) : Prop where
  res_len : ∀ opc k rnd, (c.F2345 opc k rnd).RES.length = 8
  ck_len : ∀ opc k rnd, (c.F2345 opc k rnd).CK.length = 16
  ik_len : ∀ opc k rnd, (c.F2345 opc k rnd).IK.length = 16
  ak_len : ∀ opc k rnd, (c.F2345 opc k rnd).AK.length = 6
  akstar_len : ∀ opc k rnd, (c.F2345 opc k rnd).AKstar.length = 6
  mac_a_len : ∀ opc k rnd sqn amf, (c.F1 opc k rnd sqn amf).1.length = 8
  mac_s_len : ∀ opc k rnd sqn amf, (c.F1 opc k rnd sqn amf).2.length = 8
  kdf_len : ∀ key fc ps, (c.GetKDFValue key fc ps).length = 32

/-- Modelled from the spec: `UeauCommon.KDFLen` (TS 33.220) — the
two-byte big-endian length of a KDF parameter; the library file is not
among the excerpts. -/
def KDFLen (p : List Nat) : List Nat :=
  [p.length / 256 % 256, p.length % 256]

/-- The `UeauCommon` FC constants (TS 33.501 Annex A). -/
def FC_FOR_KAUSF_DERIVATION : String := "6A"
def FC_FOR_RES_STAR_XRES_STAR_DERIVATION : String := "6B"
def FC_FOR_KSEAF_DERIVATION : String := "6C"
def FC_FOR_KAMF_DERIVATION : String := "6D"

/-! ## AKA derivation (context.go) -/

/-- Function `deriveAUTN`: split AUTN into `SQN⊕AK (6) || AMF (2) || MAC_a (8)`
and unmask the sequence number with AK. The caller always passes the
16-byte AUTN array of the NAS message and the 6-byte AK buffer. -/
def deriveAUTN (autn ak : List Nat) : List Nat × List Nat × List Nat :=
  let SQNxorAK := autn.take 6
  let amf := (autn.drop 6).take 2
  let mac_a := autn.drop 8
  (List.zipWith Nat.xor SQNxorAK ak, amf, mac_a)

/-- Helper `leadingDigits`: longest decimal-digit prefix of a character list. -/
def leadingDigits : List Char → List Char
  | [] => []
  | ch :: rest => if ch.isDigit then ch :: leadingDigits rest else []

/-- The submatch of the regexp `(?:imsi|supi)-([0-9]{5,15})` used by
`DerivateKamf`, for subject strings that start with `imsi-` or `supi-`
followed by digits — the shape of every `Supi` the tester builds
(`"imsi-<mcc><mnc><msin>"`). `none` when no match exists; the source
then panics indexing `groups[1]` of a nil slice. -/
def supiSubmatch (s : String) : Option String :=
  let cs := s.data
  let rest :=
    if cs.take 5 = "imsi-".data then some (cs.drop 5)
    else if cs.take 5 = "supi-".data then some (cs.drop 5)
    else none
  match rest with
  | none => none
  | some cs2 =>
    let ds := (leadingDigits cs2).take 15
    if 5 ≤ ds.length then some (String.mk ds) else none

/-- Function `DerivateKamf`: Kausf (FC 0x6A) → Kseaf (FC 0x6C) → Kamf (FC 0x6D,
ABBA = 0x0000), stored into `ue.UeSecurity.Kamf`. -/
def DerivateKamf (c : CryptoPrimitives) (ue : UEContext) (key : List Nat)
    (snName : String) (SQN AK : List Nat) : Option UEContext := do
  let P0 := strBytes snName
  let SQNxorAK := List.zipWith Nat.xor SQN AK
  let P1 := SQNxorAK
  let Kausf := c.GetKDFValue key FC_FOR_KAUSF_DERIVATION [P0, KDFLen P0, P1, KDFLen P1]
  let Kseaf := c.GetKDFValue Kausf FC_FOR_KSEAF_DERIVATION [P0, KDFLen P0]
  let digits ← supiSubmatch ue.UeSecurity.Supi
  let P0k := strBytes digits
  let P1k : List Nat := [0x00, 0x00]
  return { ue with UeSecurity := { ue.UeSecurity with
    Kamf := c.GetKDFValue Kseaf FC_FOR_KAMF_DERIVATION [P0k, KDFLen P0k, P1k, KDFLen P1k] } }

/-- Function `DerivateAlgKey`: NAS key derivation from Kamf with the selected
algorithms; a derivation error is only logged in the source, so the
state update always happens. -/
def DerivateAlgKey (c : CryptoPrimitives) (ue : UEContext) : UEContext :=
  let ks := c.AlgorithmKeyDerivation ue.UeSecurity.CipheringAlg ue.UeSecurity.Kamf
    ue.UeSecurity.IntegrityAlg
  { ue with UeSecurity := { ue.UeSecurity with KnasEnc := ks.1, KnasInt := ks.2 } }

/-- Function `DeriveRESstarAndSetKey`: the UE side of 5G-AKA. Returns the updated
UE together with `(param, outcome)`; `none` models `log.Fatal` on a hex
decode failure or the `groups[1]` panic inside `DerivateKamf`.

Two source facts this embedding preserves:
* the MAC verification block only logs
  `"Ignoring MAC failure"` — its `return nil, "MAC failure"` line is
  commented out, so execution always falls through to the SQN check;
* `authSubs` is a by-value copy, so the
  `authSubs.SequenceNumber = fmt.Sprintf("%x", sqnHn)` update is lost
  when the function returns (shadowed local below). -/
def DeriveRESstarAndSetKey (c : CryptoPrimitives) (ue : UEContext)
    (authSubs : AuthenticationSubscription) (RAND : List Nat) (snName : String)
    (AUTN : List Nat) : Option (UEContext × List Nat × String) := do
  let OPC ← hexDecodeString authSubs.OpcValue
  let K ← hexDecodeString authSubs.PermanentKeyValue
  let sqnUe ← hexDecodeString authSubs.SequenceNumber
  let AMF ← hexDecodeString authSubs.AuthenticationManagementField
  -- Generate RES, CK, IK, AK, AKstar
  let m := c.F2345 OPC K RAND
  -- Get SQN, MAC_A, AMF from AUTN
  let autnParts := deriveAUTN AUTN m.AK
  let sqnHn := autnParts.1
  let mac_aHn := autnParts.2.2
  -- Generate MAC_A, MAC_S
  let macs := c.F1 OPC K RAND sqnHn AMF
  -- MAC verification: on mac_a ≠ mac_aHn the source logs
  -- "Ignoring MAC failure" and continues; the early
  -- return of (nil, "MAC failure") is commented out in the source.
  let _mac_a := macs.1
  let _mac_aHn := mac_aHn
  -- Verification of sequence number freshness.
  if bytesCompare sqnUe sqnHn = Ordering.gt then
    let m2 := c.F2345 OPC K RAND
    -- From the standard, AMF(0x0000) should be used in the synch failure.
    let amfSynch ← hexDecodeString "0000"
    let macs2 := c.F1 OPC K RAND sqnUe amfSynch
    let sqnUeXorAK := List.zipWith Nat.xor sqnUe m2.AKstar
    let failureParam := sqnUeXorAK ++ macs2.2
    return (ue, failureParam, "SQN failure")
  else
    -- updated sqn value — on the local by-value copy only.
    let _authSubs := { authSubs with SequenceNumber := goHexBytes sqnHn }
    let key := m.CK ++ m.IK
    let P0 := strBytes snName
    let P1 := RAND
    let P2 := m.RES
    let ue ← DerivateKamf c ue key snName sqnHn m.AK
    let ue := DerivateAlgKey c ue
    let kdfVal := c.GetKDFValue key FC_FOR_RES_STAR_XRES_STAR_DERIVATION
      [P0, KDFLen P0, P1, KDFLen P1, P2, KDFLen P2]
    return (ue, kdfVal.drop (kdfVal.length / 2), "successful")

/-! ## NAS handlers (ue/nas/handler) -/

/-- The uplink NAS message the Authentication Request handler builds and
hands to `sender.SendToGnb`. `emptyMessage` is the unreachable `switch`
default, where `authenticationResponse` stays nil. -/
inductive NasUplink where
  | authenticationFailureMacFailure : List Nat → NasUplink
  | authenticationFailureSynchFailure : List Nat → NasUplink
  | authenticationResponse : List Nat → NasUplink
  | emptyMessage : NasUplink
deriving DecidableEq, Repr

/-- Handler `HandlerAuthenticationRequest`: run AKA on `(RAND, AUTN)` and switch
on the outcome string. The MM state is only changed (to
REGISTERED_INITIATED, published on `scenarioChan`) in the `"successful"`
arm. -/
def HandlerAuthenticationRequest (c : CryptoPrimitives) (ue : UEContext)
    (rand autn : List Nat) : Option (UEContext × NasUplink) := do
  let (ue1, paramAutn, check) ← DeriveRESstarAndSetKey c ue
    ue.UeSecurity.AuthenticationSubs rand ue.UeSecurity.Snn autn
  if check = "MAC failure" then
    -- not change the state of UE.
    return (ue1, .authenticationFailureMacFailure paramAutn)
  else if check = "SQN failure" then
    -- not change the state of UE.
    return (ue1, .authenticationFailureSynchFailure paramAutn)
  else if check = "successful" then
    let ue2 ← SetStateMM_REGISTERED_INITIATED ue1
    return (ue2, .authenticationResponse paramAutn)
  else
    return (ue1, .emptyMessage)

/-- Go `fmt.Sprintf("0%x0%x0%x", b2, b3, b4)` on three byte values, as
`HandlerRegistrationAccept` builds `Snssai.Sd`. -/
def goSprintfSnssaiSd (b2 b3 b4 : Nat) : String :=
  String.mk (('0' :: goHexNat b2) ++ ('0' :: goHexNat b3) ++ ('0' :: goHexNat b4))

/-- Handler `HandlerRegistrationAccept`, up to the externally encoded
Registration Complete message and the trailing sleep: move MM to
REGISTERED, persist the AMF identifiers and the 5G-GUTI, and, when the
UE was configured with `Sst = 0`, adopt the first Allowed NSSAI entry
(`Sst = nssai[1]`, `Sd = Sprintf("0%x0%x0%x", nssai[2..4])`). Indexing
`nssai` out of range is a Go panic (`none`). -/
def HandlerRegistrationAccept (ue : UEContext)
    (amfRegionId amfPointer amfSetId : Nat) (tmsi5g : List Nat)
    (nssai : List Nat) : Option UEContext := do
  let ue ← SetStateMM_REGISTERED ue
  let ue := SetAmfRegionId ue amfRegionId
  let ue := SetAmfPointer ue amfPointer
  let ue := SetAmfSetId ue amfSetId
  let ue := Set5gGuti ue tmsi5g
  -- use the slice allowed by the network in PDU session request
  if ue.Snssai.Sst = 0 then
    let b1 ← nssai.get? 1
    let b2 ← nssai.get? 2
    let b3 ← nssai.get? 3
    let b4 ← nssai.get? 4
    return { ue with Snssai := { Sst := Int.ofNat b1, Sd := goSprintfSnssaiSd b2 b3 b4 } }
  else
    return ue

/-! ## PDU session slots (context.go) -/

/-- Function `CreatePDUSession`: find the first free slot `i`, store a fresh
session with `Id = i + 1` there (Go zero values elsewhere), or an error
when all 16 slots are taken. -/
def CreatePDUSession (ue : UEContext) : GoResult (UEPDUSession × UEContext) :=
  match ue.PduSession.findIdx? Option.isNone with
  | none => .err
  | some i =>
    let s : UEPDUSession :=
      { Id := i + 1, ueIP := "", hasTun := false, hasRoute := false, hasVrf := false
        waitClosed := false, hasStopSignal := false, StateSM := 0 }
    .ok (s, { ue with PduSession := ue.PduSession.set i (some s) })

/-- Function `GetPduSession`: guard `pduSessionid > 15`, then read slot
`pduSessionid - 1` — the subtraction is on `uint8`, so id `0` wraps to
index `255` and the array access panics. -/
def GetPduSession (ue : UEContext) (pduSessionid : Nat) : GoResult UEPDUSession :=
  if pduSessionid > 15 then .err
  else
    match ue.PduSession.get? ((pduSessionid + 255) % 256) with
    | none => .goPanic
    | some none => .err
    | some (some s) => .ok s

/-- Function `DeletePduSession`: same guard and `uint8` index arithmetic as
`GetPduSession`; close the session's `Wait` channel (a second close
would panic), fire `stopSignal` (an external channel send), and clear
the slot. -/
def DeletePduSession (ue : UEContext) (pduSessionid : Nat) : GoResult UEContext :=
  if pduSessionid > 15 then .err
  else
    let idx := (pduSessionid + 255) % 256
    match ue.PduSession.get? idx with
    | none => .goPanic
    | some none => .err
    | some (some s) =>
      if s.waitClosed then .goPanic
      else
        .ok { ue with PduSession := ue.PduSession.set idx none }

/-! ## Routing indicator (context.go) -/

/-- The pair-swapping loop `for i := 1; i < len; i += 2` over the padded
routing-indicator digits. -/
def swapPairs : List Char → List Char
  | a :: b :: rest => b :: a :: swapPairs rest
  | xs => xs

/-- Function `GetRoutingIndicatorInOctets` as a function of the configured
routing indicator (the receiver field it reads, and resets to `"0"`
when empty): pad with `'F'` to 4 digits, swap digit pairs, BCD-encode.
`none` models the two `log.Fatal` exits (more than 4 digits, or a
non-hex digit). -/
def GetRoutingIndicatorInOctets (routingIndicator : String) : Option (List Nat) :=
  let ri := if routingIndicator.length = 0 then "0" else routingIndicator
  if ri.length > 4 then none
  else
    let padded := ri.data ++ List.replicate (4 - ri.length) 'F'
    hexDecodeChars (swapPairs padded)

/-! ## Terminate (context.go) -/

/-- Function `Terminate`: MM → NULL (without a scenario publish), netlink
teardown of every live session's TUN/route/VRF (external OS effects;
no `UEContext` field changes, in particular the slots are not
cleared), then under the UE lock close-and-nil `gnbRx` when non-nil,
and finally close `scenarioChan`. Closing a closed channel is a Go
panic (`none`). -/
def Terminate (ue : UEContext) : Option UEContext := do
  let ue := SetStateMM_NULL ue
  -- clean all context of tun interface: netlink LinkSetDown/LinkDel/RouteDel,
  -- errors ignored; no context state is written.
  let ue ← match ue.gnbRx with
    | some ch => if ch.closed then none else some { ue with gnbRx := none }
    | none => some ue
  if ue.scenarioChan.closed then none
  else some { ue with scenarioChan := { ue.scenarioChan with closed := true } }

/-! ## Concrete instances used by witnesses and counterexamples -/

/-- A concrete crypto instance: constant Milenage outputs of the buffer
sizes the source allocates, and the 32-byte KDF output `0,1,...,31`. -/
def cZero : CryptoPrimitives where
  F2345 := fun _ _ _ =>
    { RES := List.replicate 8 0, CK := List.replicate 16 0, IK := List.replicate 16 0
      AK := List.replicate 6 0, AKstar := List.replicate 6 0 }
  F1 := fun _ _ _ _ _ => (List.replicate 8 0, List.replicate 8 0)
  GetKDFValue := fun _ _ _ => List.range 32
  AlgorithmKeyDerivation := fun _ _ _ => (List.replicate 16 0, List.replicate 16 0)

/-- The test-vector subscription of spec §8 with all-zero stored SQN. -/
def authSubsA : AuthenticationSubscription :=
  { PermanentKeyValue := "8baf473f2f8fd09487cccbd7097c6862"
    OpcValue := "8e27b6af0e692e750f32667a3b14605d"
    OpValue := ""
    AuthenticationManagementField := "8000"
    SequenceNumber := "000000000000" }

/-- A registered-capable UE context before authentication. -/
def ueA : UEContext :=
  { id := 1
    UeSecurity :=
      { Supi := "imsi-2089300007487", Msin := "0000007487", IntegrityAlg := 2
        CipheringAlg := 0, Snn := "5G:mnc093.mcc208.3gppnetwork.org"
        KnasEnc := List.replicate 16 0, KnasInt := List.replicate 16 0, Kamf := []
        AuthenticationSubs := authSubsA, RoutingIndicator := "1", Guti := [0, 0, 0, 0] }
    StateMM := MM5G_DEREGISTERED
    gnbRx := some { closed := false, buf := [] }
    PduSession := List.replicate 16 none
    amfInfo := { amfRegionId := 0, amfSetId := 0, amfPointer := 0, amfUeId := 0 }
    Dnn := "internet"
    Snssai := { Sst := 1, Sd := "010203" }
    TunnelEnabled := false
    scenarioChan := { closed := false, buf := [] } }

/-- All-zero 16-byte RAND. -/
def randA : List Nat := List.replicate 16 0

/-- A 16-byte AUTN: under `cZero` (AK = 0) it carries
`SQN_hn = 00 00 00 00 00 01`, `AMF = 0x8000`, and the MAC
`01 01 01 01 01 01 01 01` — which differs from every MAC `cZero.F1`
recomputes (always `00 × 8`). -/
def autnA : List Nat := [0, 0, 0, 0, 0, 1, 0x80, 0, 1, 1, 1, 1, 1, 1, 1, 1]

/-- The OPc bytes of `authSubsA`. -/
def OPCA : List Nat := (hexDecodeString authSubsA.OpcValue).getD []

/-- The K bytes of `authSubsA`. -/
def KA : List Nat := (hexDecodeString authSubsA.PermanentKeyValue).getD []

/-- The AMF bytes of `authSubsA`. -/
def AMFA : List Nat := (hexDecodeString authSubsA.AuthenticationManagementField).getD []

/-- The `SQN_hn` that `autnA` carries for `cZero` (AK = 0). -/
def sqnHnA : List Nat := (deriveAUTN autnA (cZero.F2345 OPCA KA randA).AK).1

/-- Subscription `authSubsA` with a stored sequence number ahead of `autnA`'s. -/
def authSubsB : AuthenticationSubscription :=
  { authSubsA with SequenceNumber := "000000000002" }

/-- An established PDU session occupying slot 0. -/
def sessA : UEPDUSession :=
  { Id := 1, ueIP := "10.45.0.2", hasTun := false, hasRoute := false, hasVrf := false
    waitClosed := false, hasStopSignal := false, StateSM := SM5G_PDU_SESSION_ACTIVE }

/-- Context `ueA` with `sessA` in slot 0. -/
def ueS : UEContext :=
  { ueA with PduSession := some sessA :: List.replicate 15 none }

/-- Context `ueA` configured with `Sst = 0` (adopt the network's allowed NSSAI). -/
def ueSst0 : UEContext :=
  { ueA with Snssai := { Sst := 0, Sd := "" } }

/-- Context `ueA` with slots 0..14 occupied and slot 15 free, so that
`CreatePDUSession` assigns `Id = 16`. -/
def ueFull15 : UEContext :=
  { ueA with PduSession :=
      (List.range 15).map (fun i => some
        { Id := i + 1, ueIP := "", hasTun := false, hasRoute := false, hasVrf := false
          waitClosed := false, hasStopSignal := false, StateSM := 0 }) ++ [none] }

/-! ## Theorems -/

/-- Instance `cZero` has the output lengths the source's buffers impose. -/
theorem cZero_wf : CryptoWF cZero := by
  constructor <;> intros <;> simp [cZero]

/-- C10: `GetPduSession` and `DeletePduSession` are not total on their
`uint8` argument: id `0` passes the `> 15` guard, the slot index wraps
to 255, and the 16-element array access is out of bounds — a panic at
the public interface, the `goPanic` branch in this embedding. -/
theorem C10_pduSessionIdZeroPanics (ue : UEContext) (h : ue.PduSession.length = 16) :
    GetPduSession ue 0 = GoResult.goPanic ∧ DeletePduSession ue 0 = GoResult.goPanic := by
  have h255 : ue.PduSession[(255 : Nat)]? = none := by
    apply List.getElem?_eq_none
    omega
  exact ⟨by simp [GetPduSession, h255], by simp [DeletePduSession, h255]⟩

/-- C10 witness: the out-of-bounds panic at the concrete context `ueA`. -/
theorem C10_witness :
    GetPduSession ueA 0 = GoResult.goPanic ∧ DeletePduSession ueA 0 = GoResult.goPanic :=
  C10_pduSessionIdZeroPanics ueA (by decide)

/-- C9: with slots 0..14 occupied, `CreatePDUSession` assigns `Id = 16`
and stores the session in slot 15, but `GetPduSession 16` is rejected by
the `pduSessionid > 15` guard and returns an error — the id the creator
can assign is not retrievable. -/
theorem C9_idSixteenUnreachable :
    (CreatePDUSession ueFull15).toOption.map
      (fun p => (p.1.Id, p.2.PduSession.get? 15, GoResult.isErr (GetPduSession p.2 16))) =
    some (16,
      some (some { Id := 16, ueIP := "", hasTun := false, hasRoute := false, hasVrf := false
                   waitClosed := false, hasStopSignal := false, StateSM := 0 }),
      true) := by
  decide

/-- C1: at an AUTN whose MAC differs from the recomputed Milenage MAC
(first conjunct) but whose sequence number is fresh,
`DeriveRESstarAndSetKey` still returns `"successful"` — the MAC-failure
return is commented out in the source — and the Authentication Request
handler therefore emits an Authentication Response and moves MM to
REGISTERED_INITIATED instead of emitting an Authentication Failure with
cause MAC_FAILURE and leaving the state unchanged. -/
theorem C1_macCheckDisabled :
    decide ((cZero.F1 OPCA KA randA sqnHnA AMFA).1 =
      (deriveAUTN autnA (cZero.F2345 OPCA KA randA).AK).2.2) = false
  ∧ (DeriveRESstarAndSetKey cZero ueA authSubsA randA ueA.UeSecurity.Snn autnA).map
      (fun r => r.2.2) = some "successful"
  ∧ (HandlerAuthenticationRequest cZero ueA randA autnA).map
      (fun r => (r.1.StateMM, r.2)) =
      some (MM5G_REGISTERED_INITIATED,
        NasUplink.authenticationResponse ((List.range 32).drop 16)) := by
  decide

/-- C4: a successful AKA run does not persist `SQN_hn` into the UE's
subscription: `authSubs` is a by-value parameter, so after a run whose
`SQN_hn` hex-encodes to `"000000000001"` the stored `SequenceNumber` is
still the old `"000000000000"`. -/
theorem C4_sqnNotPersisted :
    goHexBytes sqnHnA = "000000000001"
  ∧ (DeriveRESstarAndSetKey cZero ueA authSubsA randA ueA.UeSecurity.Snn autnA).map
      (fun r => (r.2.2, r.1.UeSecurity.AuthenticationSubs.SequenceNumber)) =
      some ( "successful", "000000000000")
  ∧ decide ( ( "000000000000" : String) = "000000000001") = false := by
  decide

/-- C2 counterexample: terminating a UE that holds a PDU session in slot
0 leaves that slot occupied — `Terminate` sets MM to NULL and closes
`scenarioChan` (both shown), but the 16 session slots are not cleared,
so the claim "every slot is empty" fails at this concrete context. -/
theorem C2_counterexample :
    (Terminate ueS).map
      (fun u => (u.StateMM, u.scenarioChan.closed, u.PduSession.all Option.isNone,
        u.PduSession.get? 0)) =
    some (MM5G_NULL, true, false, some (some sessA)) := by
  decide

/-- C2 (amended): after `Terminate` on a context whose channels are
still open, the MM state is NULL, `scenarioChan` is closed and `gnbRx`
is closed and nil — but the PDU-session slot array is exactly what it
was before the call (OS resources are released; the slots are not
cleared). -/
theorem C2_terminateReleases (ue : UEContext)
    (hScen : ue.scenarioChan.closed = false)
    (hRx : ∀ ch, ue.gnbRx = some ch → ch.closed = false) :
    (Terminate ue).map (fun u => (u.StateMM, u.scenarioChan.closed, u.gnbRx, u.PduSession)) =
      some (MM5G_NULL, true, none, ue.PduSession) := by
  unfold Terminate
  cases hg : ue.gnbRx with
  | none => simp [SetStateMM_NULL, hg, hScen]
  | some ch =>
    have hc := hRx ch hg
    simp [SetStateMM_NULL, hg, hc, hScen]

/-- C2 witness: `Terminate` at the concrete context `ueS`. -/
theorem C2_witness :
    (Terminate ueS).map (fun u => (u.StateMM, u.scenarioChan.closed, u.gnbRx, u.PduSession)) =
      some (MM5G_NULL, true, none, ueS.PduSession) :=
  C2_terminateReleases ueS rfl (fun ch h => by injection h with h2; exact h2 ▸ rfl)

/-- C3: calling `Terminate` twice is not idempotent: any first call that
returns leaves `scenarioChan` closed, and the second call executes
`close(ue.scenarioChan)` on that closed channel — a Go panic (`none`),
contradicting the claim's "no panic, no double-close". -/
theorem C3_terminateTwicePanics (ue ue2 : UEContext) (h : Terminate ue = some ue2) :
    Terminate ue2 = none := by
  have h2 : ue2.scenarioChan.closed = true ∧ ue2.gnbRx = none := by
    unfold Terminate at h
    cases hg : ue.gnbRx with
    | none =>
      simp only [SetStateMM_NULL, hg] at h
      by_cases hs : ue.scenarioChan.closed <;> simp [hs] at h
      exact ⟨by rw [← h], by rw [← h]⟩
    | some ch =>
      simp only [SetStateMM_NULL, hg] at h
      by_cases hc : ch.closed <;> simp [hc] at h
      by_cases hs : ue.scenarioChan.closed <;> simp [hs] at h
      exact ⟨by rw [← h], by rw [← h]⟩
  obtain ⟨hclosed, hnone⟩ := h2
  unfold Terminate
  simp [SetStateMM_NULL, hnone, hclosed]

/-- C3 witness: the second `Terminate` on the result of terminating
`ueA` panics. -/
theorem C3_witness : Terminate ((Terminate ueA).getD ueA) = none :=
  C3_terminateTwicePanics ueA ((Terminate ueA).getD ueA) (by decide)

/-- C6: whenever the stored `SQN_ue` is byte-wise greater than the
`SQN_hn` recovered from AUTN, `DeriveRESstarAndSetKey` returns outcome
`"SQN failure"` with parameter `(SQN_ue ⊕ AK*) ++ MAC_S` of total
length 14, where `MAC_S` is the `mac_s` output of Milenage F1 invoked
with the synch-failure `AMF = 0x0000`, and the UE context is left
unchanged. -/
theorem C6_sqnFailure (c : CryptoPrimitives) (hwf : CryptoWF c) (ue : UEContext)
    (authSubs : AuthenticationSubscription) (RAND : List Nat) (snName : String)
    (AUTN OPC K sqnUe AMF : List Nat)
    (hOPC : hexDecodeString authSubs.OpcValue = some OPC)
    (hK : hexDecodeString authSubs.PermanentKeyValue = some K)
    (hSqn : hexDecodeString authSubs.SequenceNumber = some sqnUe)
    (hSqnLen : sqnUe.length = 6)
    (hAMF : hexDecodeString authSubs.AuthenticationManagementField = some AMF)
    (hGt : bytesCompare sqnUe (deriveAUTN AUTN (c.F2345 OPC K RAND).AK).1 = Ordering.gt) :
    DeriveRESstarAndSetKey c ue authSubs RAND snName AUTN =
      some (ue,
        List.zipWith Nat.xor sqnUe (c.F2345 OPC K RAND).AKstar ++
          (c.F1 OPC K RAND sqnUe [0x00, 0x00]).2,
        "SQN failure")
  ∧ (List.zipWith Nat.xor sqnUe (c.F2345 OPC K RAND).AKstar ++
      (c.F1 OPC K RAND sqnUe [0x00, 0x00]).2).length = 14 := by
  have h0 : hexDecodeString "0000" = some [0x00, 0x00] := by decide
  constructor
  · simp [DeriveRESstarAndSetKey, hOPC, hK, hSqn, hAMF, hGt, h0]
  · rw [List.length_append, List.length_zipWith, hSqnLen, hwf.akstar_len, hwf.mac_s_len]
    decide

/-- C6 witness: the synch failure at `authSubsB` (stored SQN
`000000000002`) against `autnA` (`SQN_hn = 000000000001`). -/
theorem C6_witness :
    DeriveRESstarAndSetKey cZero ueA authSubsB randA ueA.UeSecurity.Snn autnA =
      some (ueA,
        List.zipWith Nat.xor [0, 0, 0, 0, 0, 2] (cZero.F2345 OPCA KA randA).AKstar ++
          (cZero.F1 OPCA KA randA [0, 0, 0, 0, 0, 2] [0x00, 0x00]).2,
        "SQN failure") :=
  (C6_sqnFailure cZero cZero_wf ueA authSubsB randA ueA.UeSecurity.Snn autnA OPCA KA
    [0, 0, 0, 0, 0, 2] AMFA rfl rfl rfl rfl rfl (by decide)).1

/-- C5 counterexample: at a successful run whose 32-byte KDF output is
`0,1,...,31`, the returned `param` is the lower half `16,...,31` —
sixteen bytes — and differs from the last 8 bytes `24,...,31` the claim
names. -/
theorem C5_counterexample :
    (DeriveRESstarAndSetKey cZero ueA authSubsA randA ueA.UeSecurity.Snn autnA).map
      (fun r => (r.2.1, r.2.2)) = some ((List.range 32).drop 16, "successful")
  ∧ ((List.range 32).drop 16).length = 16
  ∧ decide ((List.range 32).drop 16 = (List.range 32).drop 24) = false := by
  decide

/-- C5 (amended): on a successful AKA run, `DeriveRESstarAndSetKey`
returns as `param` the lower half — the last 16 bytes — of the 32-byte
output of `KDF(CK ∥ IK, FC = 0x6B, P0 = SNN, P1 = RAND, P2 = RES)`, and
the Authentication Request handler then emits an Authentication
Response carrying that `param` and moves the MM state to
REGISTERED_INITIATED. -/
theorem C5_resStarLowerHalf (c : CryptoPrimitives) (hwf : CryptoWF c) (ue : UEContext)
    (RAND AUTN OPC K sqnUe AMF : List Nat) (digits : String)
    (hOPC : hexDecodeString ue.UeSecurity.AuthenticationSubs.OpcValue = some OPC)
    (hK : hexDecodeString ue.UeSecurity.AuthenticationSubs.PermanentKeyValue = some K)
    (hSqn : hexDecodeString ue.UeSecurity.AuthenticationSubs.SequenceNumber = some sqnUe)
    (hAMF : hexDecodeString ue.UeSecurity.AuthenticationSubs.AuthenticationManagementField
      = some AMF)
    (hFresh : bytesCompare sqnUe (deriveAUTN AUTN (c.F2345 OPC K RAND).AK).1 ≠ Ordering.gt)
    (hSupi : supiSubmatch ue.UeSecurity.Supi = some digits)
    (hScen : ue.scenarioChan.closed = false) :
    (DeriveRESstarAndSetKey c ue ue.UeSecurity.AuthenticationSubs RAND ue.UeSecurity.Snn AUTN).map
      (fun r => (r.2.1, r.2.2)) =
      some ((c.GetKDFValue ((c.F2345 OPC K RAND).CK ++ (c.F2345 OPC K RAND).IK)
          FC_FOR_RES_STAR_XRES_STAR_DERIVATION
          [strBytes ue.UeSecurity.Snn, KDFLen (strBytes ue.UeSecurity.Snn),
            RAND, KDFLen RAND,
            (c.F2345 OPC K RAND).RES, KDFLen ((c.F2345 OPC K RAND).RES)]).drop 16,
        "successful")
  ∧ ((c.GetKDFValue ((c.F2345 OPC K RAND).CK ++ (c.F2345 OPC K RAND).IK)
        FC_FOR_RES_STAR_XRES_STAR_DERIVATION
        [strBytes ue.UeSecurity.Snn, KDFLen (strBytes ue.UeSecurity.Snn),
          RAND, KDFLen RAND,
          (c.F2345 OPC K RAND).RES, KDFLen ((c.F2345 OPC K RAND).RES)]).drop 16).length = 16
  ∧ (HandlerAuthenticationRequest c ue RAND AUTN).map (fun r => (r.1.StateMM, r.2)) =
      some (MM5G_REGISTERED_INITIATED,
        NasUplink.authenticationResponse
          ((c.GetKDFValue ((c.F2345 OPC K RAND).CK ++ (c.F2345 OPC K RAND).IK)
              FC_FOR_RES_STAR_XRES_STAR_DERIVATION
              [strBytes ue.UeSecurity.Snn, KDFLen (strBytes ue.UeSecurity.Snn),
                RAND, KDFLen RAND,
                (c.F2345 OPC K RAND).RES, KDFLen ((c.F2345 OPC K RAND).RES)]).drop 16)) := by
  have hlen := hwf.kdf_len ((c.F2345 OPC K RAND).CK ++ (c.F2345 OPC K RAND).IK)
    FC_FOR_RES_STAR_XRES_STAR_DERIVATION
    [strBytes ue.UeSecurity.Snn, KDFLen (strBytes ue.UeSecurity.Snn),
      RAND, KDFLen RAND,
      (c.F2345 OPC K RAND).RES, KDFLen ((c.F2345 OPC K RAND).RES)]
  have hD : DeriveRESstarAndSetKey c ue ue.UeSecurity.AuthenticationSubs RAND
      ue.UeSecurity.Snn AUTN =
      some (DerivateAlgKey c
          ({ ue with UeSecurity := { ue.UeSecurity with
              Kamf := c.GetKDFValue
                (c.GetKDFValue ((c.F2345 OPC K RAND).CK ++ (c.F2345 OPC K RAND).IK)
                  FC_FOR_KAUSF_DERIVATION
                  [strBytes ue.UeSecurity.Snn, KDFLen (strBytes ue.UeSecurity.Snn),
                    List.zipWith Nat.xor (deriveAUTN AUTN (c.F2345 OPC K RAND).AK).1
                      (c.F2345 OPC K RAND).AK,
                    KDFLen (List.zipWith Nat.xor (deriveAUTN AUTN (c.F2345 OPC K RAND).AK).1
                      (c.F2345 OPC K RAND).AK)]
                  |> fun kausf => c.GetKDFValue kausf FC_FOR_KSEAF_DERIVATION
                    [strBytes ue.UeSecurity.Snn, KDFLen (strBytes ue.UeSecurity.Snn)])
                FC_FOR_KAMF_DERIVATION
                [strBytes digits, KDFLen (strBytes digits), [0x00, 0x00],
                  KDFLen [0x00, 0x00]] } }),
        (c.GetKDFValue ((c.F2345 OPC K RAND).CK ++ (c.F2345 OPC K RAND).IK)
            FC_FOR_RES_STAR_XRES_STAR_DERIVATION
            [strBytes ue.UeSecurity.Snn, KDFLen (strBytes ue.UeSecurity.Snn),
              RAND, KDFLen RAND,
              (c.F2345 OPC K RAND).RES, KDFLen ((c.F2345 OPC K RAND).RES)]).drop 16,
        "successful") := by
    simp [DeriveRESstarAndSetKey, DerivateKamf, hOPC, hK, hSqn, hAMF, hFresh, hSupi, hlen]
  refine ⟨by simp [hD], by simp [List.length_drop, hlen], ?_⟩
  simp [HandlerAuthenticationRequest, hD, SetStateMM_REGISTERED_INITIATED, scenarioSend,
    DerivateAlgKey, hScen]

/-- C5 witness: the successful run at `ueA`/`autnA` under `cZero`,
with the theorem's hypotheses discharged at that concrete input. -/
theorem C5_witness :
    (DeriveRESstarAndSetKey cZero ueA ueA.UeSecurity.AuthenticationSubs randA
      ueA.UeSecurity.Snn autnA).map (fun r => (r.2.1, r.2.2)) =
      some ((cZero.GetKDFValue ((cZero.F2345 OPCA KA randA).CK ++ (cZero.F2345 OPCA KA randA).IK)
          FC_FOR_RES_STAR_XRES_STAR_DERIVATION
          [strBytes ueA.UeSecurity.Snn, KDFLen (strBytes ueA.UeSecurity.Snn),
            randA, KDFLen randA,
            (cZero.F2345 OPCA KA randA).RES, KDFLen ((cZero.F2345 OPCA KA randA).RES)]).drop 16,
        "successful") :=
  (C5_resStarLowerHalf cZero cZero_wf ueA randA autnA OPCA KA [0, 0, 0, 0, 0, 0] AMFA
    "2089300007487" rfl rfl rfl rfl (by decide) rfl rfl).1

/-- C7 counterexample: the empty (unconfigured) routing indicator is
replaced by `"0"`, padded to `"0FFF"` and pair-swapped to `"F0FF"`, so
it encodes to `{0xF0, 0xFF}` — not the `{0x00, 0xF0}` the claim
states. -/
theorem C7_counterexample :
    GetRoutingIndicatorInOctets "" = some [0xF0, 0xFF]
  ∧ decide (GetRoutingIndicatorInOctets "" = some [0x00, 0xF0]) = false := by
  decide

/-- C7 (amended): `GetRoutingIndicatorInOctets` encodes `"100"` as
`{0x01, 0xF0}`, encodes the empty (unconfigured) routing indicator as
`{0xF0, 0xFF}`, and rejects (fatally, at construction time) every
routing indicator longer than 4 digits. -/
theorem C7_routingIndicatorEncoding :
    GetRoutingIndicatorInOctets "100" = some [0x01, 0xF0]
  ∧ GetRoutingIndicatorInOctets "" = some [0xF0, 0xFF]
  ∧ ∀ ri : String, 4 < ri.length → GetRoutingIndicatorInOctets ri = none := by
  refine ⟨by decide, by decide, ?_⟩
  intro ri h
  have h0 : ¬ ri.length = 0 := by omega
  simp [GetRoutingIndicatorInOctets, h0, h]

/-- C7 witness: the five-digit routing indicator `"12345"` is
rejected. -/
theorem C7_witness : GetRoutingIndicatorInOctets "12345" = none :=
  C7_routingIndicatorEncoding.2.2 "12345" (by decide)

/-- C8 counterexample: with configured `Sst = 0` and an Allowed NSSAI
value whose third byte is `0x10`, the handler stores
`Sd = "0100000"` (the `Sprintf("0%x0%x0%x")` rendering), which is not
the hexadecimal string `"100000"` of the bytes `{0x10, 0x00, 0x00}` —
the claimed equality fails for bytes ≥ 0x10. -/
theorem C8_counterexample :
    (HandlerRegistrationAccept ueSst0 0 0 0 [1, 2, 3, 4] [1, 1, 0x10, 0, 0]).map
      (fun u => u.Snssai.Sd) = some "0100000"
  ∧ decide ( ( "0100000" : String) = String.mk (hexEncodeBytes [0x10, 0, 0])) = false := by
  decide

/-- C8 (amended): if the UE was configured with `Sst = 0`, handling a
Registration Accept with an Allowed NSSAI value sets `Sst` to byte 1 of
that value, and — whenever each of the three bytes `nssai[2..4]` is
below 0x10 — sets `Sd` to the hexadecimal string of those three bytes
(so `{0x01, 0x02, 0x03}` yields `"010203"`); in general `Sd` is the
`Sprintf("0%x0%x0%x")` rendering, which pads single hex digits but not
two-digit bytes. -/
theorem C8_allowedNssaiAdoption (ue : UEContext) (amfR amfP amfS : Nat)
    (tmsi nssai : List Nat) (b1 b2 b3 b4 : Nat)
    (hSst : ue.Snssai.Sst = 0) (hScen : ue.scenarioChan.closed = false)
    (h1 : nssai[1]? = some b1) (h2 : nssai[2]? = some b2)
    (h3 : nssai[3]? = some b3) (h4 : nssai[4]? = some b4)
    (hb2 : b2 < 16) (hb3 : b3 < 16) (hb4 : b4 < 16) :
    (HandlerRegistrationAccept ue amfR amfP amfS tmsi nssai).map
      (fun u => (u.Snssai.Sst, u.Snssai.Sd)) =
    some (Int.ofNat b1, String.mk (hexEncodeBytes [b2, b3, b4])) := by
  have hsd : goSprintfSnssaiSd b2 b3 b4 = String.mk (hexEncodeBytes [b2, b3, b4]) := by
    have e2a : b2 % 256 = b2 := Nat.mod_eq_of_lt (by omega)
    have e2b : b2 % 16 = b2 := Nat.mod_eq_of_lt hb2
    have e3a : b3 % 256 = b3 := Nat.mod_eq_of_lt (by omega)
    have e3b : b3 % 16 = b3 := Nat.mod_eq_of_lt hb3
    have e4a : b4 % 256 = b4 := Nat.mod_eq_of_lt (by omega)
    have e4b : b4 % 16 = b4 := Nat.mod_eq_of_lt hb4
    have d2 : b2 / 16 = 0 := Nat.div_eq_of_lt hb2
    have d3 : b3 / 16 = 0 := Nat.div_eq_of_lt hb3
    have d4 : b4 / 16 = 0 := Nat.div_eq_of_lt hb4
    have hz : hexDigitChar 0 = '0' := by decide
    simp [goSprintfSnssaiSd, hexEncodeBytes, goHexNat, e2a, e2b, e3a, e3b, e4a, e4b,
      d2, d3, d4, hb2, hb3, hb4, hz]
  simp [HandlerRegistrationAccept, SetStateMM_REGISTERED, scenarioSend, SetAmfRegionId,
    SetAmfPointer, SetAmfSetId, Set5gGuti, hSst, hScen, h1, h2, h3, h4, hsd]

/-- C8 witness: the adoption at concrete bytes `{0x02, 0x03, 0x04}`. -/
theorem C8_witness :
    (HandlerRegistrationAccept ueSst0 0 0 0 [1, 2, 3, 4] [1, 1, 2, 3, 4]).map
      (fun u => (u.Snssai.Sst, u.Snssai.Sd)) =
    some (Int.ofNat 1, String.mk (hexEncodeBytes [2, 3, 4])) :=
  C8_allowedNssaiAdoption ueSst0 0 0 0 [1, 2, 3, 4] [1, 1, 2, 3, 4] 1 2 3 4
    rfl rfl rfl rfl rfl rfl (by decide) (by decide) (by decide)

end PacketRusher
